import Mathlib

/-!
Shallow embedding of `src/proxy.rs` (ztunnel proxy core): the
identity-scoped certificate fetch guard, the gateway/waypoint
authorization predicates, the freebind connection-establishment helper,
the transparent-listener setup, the inbound service-attribution
heuristic, and the W3C `TraceParent` parser/formatter.
Machine integers are modelled as `Nat` with explicit bounds where they
matter; fallible operations return `Except`; panics are modelled as
`Option.none` at the outer layer; effectful socket code is modelled by
an outcome oracle plus an explicit event trace.
-/

namespace ZtunnelProxy

/-! ### Basic address data model -/

/-- An IP address: either IPv4 (32-bit value) or IPv6 (128-bit value). -/
inductive IpAddr where
  | v4 (a : Nat)
  | v6 (a : Nat)
deriving DecidableEq, Repr

/-- `IpAddr::is_ipv4`. -/
def IpAddr.isV4 : IpAddr → Bool
  | .v4 _ => true
  | .v6 _ => false

/-- Modelled from the spec: `socket::to_canonical` (the `socket` module is
not part of the given source). Canonicalizes an IPv4-mapped IPv6 address
`::ffff:a.b.c.d` (high 96 bits equal to `0x0000...ffff`) to the embedded
IPv4 address; all other addresses are unchanged. -/
def canonicalIp : IpAddr → IpAddr
  | .v4 a => .v4 a
  | .v6 a => if a / 2 ^ 32 = 0xffff then .v4 (a % 2 ^ 32) else .v6 a

/-- A socket address: IP plus port. -/
structure SocketAddr where
  ip : IpAddr
  port : Nat
deriving DecidableEq, Repr

/-- `socket::to_canonical` on a `SocketAddr`: canonicalize the IP, keep
the port. -/
def toCanonical (sa : SocketAddr) : SocketAddr :=
  { ip := canonicalIp sa.ip, port := sa.port }

/-- A network-scoped address (`state::workload::NetworkAddress`). -/
structure NetworkAddress where
  network : String
  address : IpAddr
deriving DecidableEq, Repr

/-- Modelled from the spec: `network_addr(network, ip)` builds the
network-scoped address used to key endpoints (definition lives in the
`state::workload` module, outside the given source). -/
def network_addr (network : String) (ip : IpAddr) : NetworkAddress :=
  { network := network, address := ip }

/-- A namespaced hostname (`state::workload::NamespacedHostname`). -/
structure NamespacedHostname where
  namespaceName : String
  hostname : String
deriving DecidableEq, Repr

/-- A gateway destination: either a literal network address or a
namespaced hostname (`gatewayaddress::Destination`). -/
inductive Destination where
  | Address (addr : NetworkAddress)
  | Hostname (host : NamespacedHostname)
deriving DecidableEq, Repr

/-- `GatewayAddress`: a destination plus an HBONE mTLS port. -/
structure GatewayAddress where
  destination : Destination
  hbone_mtls_port : Nat
deriving DecidableEq, Repr

/-! ### Identity and workload data model -/

/-- `identity::Identity`: a SPIFFE principal. The Rust enum has the
single variant `Spiffe { trust_domain, namespace, service_account }`. -/
inductive Identity where
  | Spiffe (trust_domain : String) (namespaceName : String)
      (service_account : String)
deriving DecidableEq, Repr

/-- `WorkloadInfo`: the proxy's own identity scope. Only the
`namespace` and `service_account` fields are consulted by the code in
the given source (trust domain is deliberately absent, per the spec). -/
structure WorkloadInfo where
  name : String
  namespaceName : String
  service_account : String
deriving DecidableEq, Repr

/-- Endpoint key: modelled from the spec, `endpoint_uid(workload_uid,
network_address)` keys an endpoint by the workload UID and the resolved
network address (the `state::service` module is outside the given
source; the key is modelled structurally as the pair). -/
def endpoint_uid (workload_uid : String) (addr : Option NetworkAddress) :
    String × Option NetworkAddress :=
  (workload_uid, addr)

/-- A service endpoint (`state::service::Endpoint`): the backing
workload UID, its optional resolved address, and a named-port mapping
(service port to workload port). -/
structure Endpoint where
  workload_uid : String
  address : Option NetworkAddress
  port : List (Nat × Nat)
deriving DecidableEq, Repr

/-- `state::service::Service`: the fields consulted by the code in the
given source (hostname, port mapping service-port to target-port, and
endpoints keyed by endpoint UID). -/
structure Service where
  name : String
  namespaceName : String
  hostname : String
  ports : List (Nat × Nat)
  endpoints : List ((String × Option NetworkAddress) × Endpoint)
deriving DecidableEq, Repr

/-- `ServiceDescription`: the lightweight projection of a `Service`
used for attribution (modelled from the spec: a projection carrying the
service's naming fields, never used for routing). -/
structure ServiceDescription where
  name : String
  namespaceName : String
  hostname : String
deriving DecidableEq, Repr

/-- `ServiceDescription::from(&Service)`. -/
def ServiceDescription.fromService (s : Service) : ServiceDescription :=
  { name := s.name, namespaceName := s.namespaceName,
    hostname := s.hostname }

/-- `state::workload::Workload`: the fields consulted by the code in
the given source (identity fields, IP set, optional waypoint and
network gateway, uid and network used for endpoint keying). -/
structure Workload where
  uid : String
  name : String
  namespaceName : String
  trust_domain : String
  service_account : String
  network : String
  workload_ips : List IpAddr
  waypoint : Option GatewayAddress
  network_gateway : Option GatewayAddress
deriving DecidableEq, Repr

/-- Modelled from the spec: `Workload::identity()` (defined in the
`state::workload` module, outside the given source) builds the SPIFFE
identity from the workload's trust domain, namespace and service
account. -/
def Workload.identity (wl : Workload) : Identity :=
  .Spiffe wl.trust_domain wl.namespaceName wl.service_account

/-- `state::workload::address::Address`: a resolved destination is
either a single workload or a service. -/
inductive Address where
  | Workload (wl : Workload)
  | Service (svc : Service)
deriving DecidableEq, Repr

/-- The state-store contract consumed by the core (`DemandProxyState`):
`fetch_destination` and `fetch_workload_by_uid`, both returning `none`
rather than erroring on not-found. -/
structure DemandProxyState where
  fetch_destination : Destination → Option Address
  fetch_workload_by_uid : String → Option Workload

/-! ### ScopedSecretManager (identity-scoped certificate fetch) -/

/-- A fetched workload certificate; its contents are owned by the
external TLS layer, so it is modelled opaquely by a serial number. -/
structure WorkloadCertificate where
  serial : Nat
deriving DecidableEq, Repr

/-- `identity::Error`: the kinds relevant to the given source — the
distinct "invalid identity request" bug kind carrying both identities,
plus a generic backend-produced kind. -/
inductive IdentityError where
  | BugInvalidIdentityRequest (id : Identity) (allowed : WorkloadInfo)
  | Backend (msg : String)
deriving DecidableEq, Repr

/-- `ScopedSecretManager`: the certificate backend (modelled as the
function the backend contract exposes) plus the optional `allowed`
restriction. -/
structure ScopedSecretManager where
  cert_manager : Identity → Except IdentityError WorkloadCertificate
  allowed : Option WorkloadInfo

/-- `ScopedSecretManager::fetch_certificate`: if restricted, reject an
identity whose namespace or service-account differs from the
restriction with the distinct bug error, without consulting the
backend; otherwise delegate to the backend verbatim. -/
def ScopedSecretManager.fetch_certificate (m : ScopedSecretManager)
    (id : Identity) : Except IdentityError WorkloadCertificate :=
  match m.allowed with
  | some allowed =>
    match id with
    | .Spiffe _trust_domain ns sa =>
      -- We cannot compare trust domain, since we don't get this from WorkloadInfo
      if ns ≠ allowed.namespaceName ∨ sa ≠ allowed.service_account then
        .error (.BugInvalidIdentityRequest id allowed)
      else
        m.cert_manager id
  | none => m.cert_manager id

/-! ### Gateway / waypoint authorization checks -/

/-- `check_gateway_address(state, gateway_address, predicate)`: false
with no gateway address; otherwise resolve the destination — a workload
is tested directly, a service succeeds iff some endpoint's workload
(fetched by UID) satisfies the predicate; an unresolvable destination
yields false. -/
def check_gateway_address (state : DemandProxyState)
    (gateway_address : Option GatewayAddress)
    (predicate : Workload → Bool) : Bool :=
  match gateway_address with
  | none => false
  | some ga =>
    match state.fetch_destination ga.destination with
    | some (.Workload wl) => predicate wl
    | some (.Service svc) =>
      svc.endpoints.any fun ep =>
        match state.fetch_workload_by_uid ep.2.workload_uid with
        | some wl => predicate wl
        | none => false
    | none => false

/-- `check_from_waypoint`: the candidate workload must match the source
identity and contain the source IP in its address set. -/
def check_from_waypoint (state : DemandProxyState) (upstream : Workload)
    (src_identity : Option Identity) (src_ip : IpAddr) : Bool :=
  check_gateway_address state upstream.waypoint fun wl =>
    decide (some wl.identity = src_identity ∧ src_ip ∈ wl.workload_ips)

/-- `check_from_network_gateway`: the candidate workload must match the
source identity only (no address check). -/
def check_from_network_gateway (state : DemandProxyState)
    (upstream : Workload) (src_identity : Option Identity) : Bool :=
  check_gateway_address state upstream.network_gateway fun wl =>
    decide (some wl.identity = src_identity)

/-- The workloads constituting a gateway address under a state store: a
directly-resolved workload, or the resolvable endpoint workloads of a
resolved service. Used to state the authorization claims. -/
def gatewayWorkloads (state : DemandProxyState)
    (gateway_address : Option GatewayAddress) : List Workload :=
  match gateway_address with
  | none => []
  | some ga =>
    match state.fetch_destination ga.destination with
    | some (.Workload wl) => [wl]
    | some (.Service svc) =>
      svc.endpoints.filterMap fun ep =>
        state.fetch_workload_by_uid ep.2.workload_uid
    | none => []

/-! ### Connection establishment (freebind connect) -/

/-- An I/O error kind, with the kinds the claims distinguish plus a
catch-all for arbitrary OS errors. -/
inductive IoErrKind where
  | timedOut
  | connectionRefused
  | other (code : Nat)
deriving DecidableEq, Repr

/-- A socket-layer event, recording which operations
`freebind_connect`'s inner `connect` attempts, in order. -/
inductive SockEv where
  | newTcpV4
  | newTcpV6
  | setFreebindTransparent
  | bindLocal (a : SocketAddr)
  | connectTo (a : SocketAddr)
deriving DecidableEq, Repr

/-- Outcome oracle for the OS-level socket operations the inner
`connect` performs (the SocketFactory seam plus the kernel `connect`):
each field gives the result that operation would return if attempted. -/
structure ConnectOracle where
  newTcpV4 : Except IoErrKind Unit
  newTcpV6 : Except IoErrKind Unit
  setFreebindTransparent : Except IoErrKind Unit
  bindLocal : Except IoErrKind Unit
  osConnect : Except IoErrKind Unit

/-- `create_socket(is_ipv4)` inside `connect`: dispatch to the factory
by family; returns the operation's outcome and its event. -/
def createSocket (o : ConnectOracle) (isV4 : Bool) :
    Except IoErrKind Unit × SockEv :=
  if isV4 then (o.newTcpV4, .newTcpV4) else (o.newTcpV6, .newTcpV6)

/-- The inner `connect` of `freebind_connect`: returns the overall
result together with the trace of attempted socket operations.
- no local address: create a socket of the destination's family,
  connect directly;
- local address equal to the canonicalized destination IP: same as no
  local address (self-targeting avoidance);
- otherwise: create a socket of the local address's family, attempt
  freebind+transparent (warning on failure), attempt the local bind
  only if that succeeded (warning on failure), then connect. -/
def connect (o : ConnectOracle) (localAddr : Option IpAddr)
    (addr : SocketAddr) : Except IoErrKind Unit × List SockEv :=
  match localAddr with
  | none =>
    let (res, ev) := createSocket o addr.ip.isV4
    match res with
    | .error e => (.error e, [ev])
    | .ok _ => (o.osConnect, [ev, .connectTo addr])
  | some src =>
    if src = (toCanonical addr).ip then
      let (res, ev) := createSocket o addr.ip.isV4
      match res with
      | .error e => (.error e, [ev])
      | .ok _ => (o.osConnect, [ev, .connectTo addr])
    else
      let (res, ev) := createSocket o src.isV4
      match res with
      | .error e => (.error e, [ev])
      | .ok _ =>
        let local_addr : SocketAddr := { ip := src, port := 0 }
        match o.setFreebindTransparent with
        | .error _ =>
          -- warn "failed to set freebind"; proceed unbound
          (o.osConnect, [ev, .setFreebindTransparent, .connectTo addr])
        | .ok _ =>
          -- bind is attempted only after freebind succeeded; its own
          -- failure is also only a warning
          (o.osConnect,
            [ev, .setFreebindTransparent, .bindLocal local_addr,
              .connectTo addr])

/-- `CONNECTION_TIMEOUT = Duration::from_secs(10)`, in seconds. -/
def CONNECTION_TIMEOUT_SECS : Nat := 10

/-- `freebind_connect`: the inner `connect` wrapped in
`timeout(CONNECTION_TIMEOUT, ...)`; elapsing maps to a distinct
`TimedOut` I/O error, otherwise the inner result is returned verbatim.
`elapsed` is the timeout oracle: whether the timer fires before the
inner connect completes. -/
def freebind_connect (elapsed : Bool) (o : ConnectOracle)
    (localAddr : Option IpAddr) (addr : SocketAddr) :
    Except IoErrKind Unit :=
  if elapsed then .error .timedOut else (connect o localAddr addr).1

/-! ### Transparent-listener setup -/

/-- `proxy::Error`: the single kind reachable from
`maybe_set_transparent` (the `?` operator wraps the listener's I/O
error via `From<io::Error>`). -/
inductive ProxyError where
  | Io (k : IoErrKind)
deriving DecidableEq, Repr

/-- `maybe_set_transparent(pi, listener)`, with the configuration's
`require_original_source` and the outcome `listener.set_transparent()`
would return if attempted passed explicitly:
- `some true`: attempt, propagate failure as a hard error, else `true`;
- `some false`: never attempt, return `false`;
- `none`: best effort, return whether the attempt succeeded. -/
def maybe_set_transparent (require_original_source : Option Bool)
    (set_transparent : Except IoErrKind Unit) : Except ProxyError Bool :=
  match require_original_source with
  | some true =>
    match set_transparent with
    | .error e => .error (.Io e)
    | .ok _ => .ok true
  | some false => .ok false
  | none =>
    .ok (match set_transparent with
      | .ok _ => true
      | .error _ => false)

/-! ### Inbound service attribution -/

/-- `rbac::Connection`: only the destination 4-tuple half is consulted
by `guess_inbound_service`. -/
structure Connection where
  dst : SocketAddr
deriving DecidableEq, Repr

/-- Association-list lookup modelling `HashMap::get` (keys unique). -/
def assocLookup {α β : Type} [DecidableEq α] :
    List (α × β) → α → Option β
  | [], _ => none
  | (k, v) :: rest, key =>
    if k = key then some v else assocLookup rest key

/-- The per-service port scan of `guess_inbound_service`: some declared
`(service_port, target_port)` entry whose target port equals the
connection's destination port, or whose named port resolves to it
through the endpoint keyed by `euid`. -/
def servicePortMatch (s : Service)
    (euid : String × Option NetworkAddress) (dport : Nat) : Bool :=
  s.ports.any fun p =>
    p.2 = dport ||
      ((assocLookup s.endpoints euid).bind
        (fun e => assocLookup e.port p.1)) = some dport

/-- `guess_inbound_service(conn, for_host_header, upstream_service,
dest)`: prefer the candidate whose hostname equals the host header;
otherwise the first candidate passing the port scan; otherwise none. -/
def guess_inbound_service (conn : Connection)
    (for_host_header : Option String) (upstream_service : List Service)
    (dest : Workload) : Option ServiceDescription :=
  match upstream_service.find?
      (fun s => for_host_header = some s.hostname) with
  | some found => some (ServiceDescription.fromService found)
  | none =>
    let dport := conn.dst.port
    let netaddr := network_addr dest.network conn.dst.ip
    let euid := endpoint_uid dest.uid (some netaddr)
    (upstream_service.find? fun s => servicePortMatch s euid dport).map
      ServiceDescription.fromService

/-! ### TraceParent -/

/-- `TraceParent`: version (u8), trace id (u128), parent id (u64),
flags (u8), modelled as bounded naturals. -/
structure TraceParent where
  version : Nat
  trace_id : Nat
  parent_id : Nat
  flags : Nat
deriving DecidableEq, Repr

/-- Field bounds of the Rust machine-integer fields. -/
def TraceParent.WF (tp : TraceParent) : Prop :=
  tp.version < 2 ^ 8 ∧ tp.trace_id < 2 ^ 128 ∧ tp.parent_id < 2 ^ 64 ∧
    tp.flags < 2 ^ 8

instance (tp : TraceParent) : Decidable tp.WF := by
  unfold TraceParent.WF; infer_instance

/-- The value of a hexadecimal digit character (`char::to_digit(16)`):
`0`-`9`, `a`-`f`, `A`-`F`. -/
def hexVal (c : Char) : Option Nat :=
  if '0' ≤ c ∧ c ≤ '9' then some (c.toNat - '0'.toNat)
  else if 'a' ≤ c ∧ c ≤ 'f' then some (c.toNat - 'a'.toNat + 10)
  else if 'A' ≤ c ∧ c ≤ 'F' then some (c.toNat - 'A'.toNat + 10)
  else none

/-- The lowercase hex digit for a value below 16 (as produced by the
`{:x}` format machinery). -/
def hexDigitChar (n : Nat) : Char :=
  if n < 10 then Char.ofNat (48 + n) else Char.ofNat (87 + n)

/-- `{:0wx}` rendering of `n`: exactly `w` lowercase hex digits with
leading zeros; coincides with the Rust format (pad to at least `w`)
whenever `n < 16 ^ w`, which the field bounds guarantee. -/
def toHexFixed : Nat → Nat → List Char
  | 0, _ => []
  | w + 1, n => toHexFixed w (n / 16) ++ [hexDigitChar (n % 16)]

/-- `fmt::Debug for TraceParent`:
`"{:02x}-{:032x}-{:016x}-{:02x}"` over version, trace id, parent id,
flags. -/
def debugFmt (tp : TraceParent) : List Char :=
  toHexFixed 2 tp.version ++ '-' ::
    (toHexFixed 32 tp.trace_id ++ '-' ::
      (toHexFixed 16 tp.parent_id ++ '-' :: toHexFixed 2 tp.flags))

/-- `fmt::Display for TraceParent`: `"{:032x}"` over the trace id
only. -/
def displayFmt (tp : TraceParent) : List Char :=
  toHexFixed 32 tp.trace_id

/-- Digit-accumulation loop of `from_str_radix(_, 16)`: fold the hex
digits left to right, failing on a non-digit. -/
def parseHexAux (acc : Nat) : List Char → Option Nat
  | [] => some acc
  | c :: cs =>
    match hexVal c with
    | some d => parseHexAux (acc * 16 + d) cs
    | none => none

/-- Leading-sign handling of `from_str_radix` for unsigned targets: a
single leading `'+'` is dropped (a leading `'-'` is left in place and
then fails as a non-digit, matching the unsigned Rust behavior). -/
def stripPlus (s : List Char) : List Char :=
  match s with
  | [] => []
  | c :: r => if c = '+' then r else s

/-- `uN::from_str_radix(s, 16)` for an `N`-bit unsigned target: empty
input or empty digits after the sign fail; a non-hex digit fails; a
value of `2 ^ bits` or more fails (overflow); otherwise the value. All
failure kinds are collapsed into `none` (the caller folds them into one
hex-decode error). -/
def fromStrRadix16 (bits : Nat) (s : List Char) : Option Nat :=
  if s = [] then none
  else
    let digits := stripPlus s
    if digits = [] then none
    else
      match parseHexAux 0 digits with
      | some v => if v < 2 ^ bits then some v else none
      | none => none

/-- `str::split('-').collect()`: split a character list on `'-'`,
keeping empty fields. -/
def splitOnHyphen : List Char → List (List Char)
  | [] => [[]]
  | c :: cs =>
    if c = '-' then [] :: splitOnHyphen cs
    else
      match splitOnHyphen cs with
      | s :: ss => (c :: s) :: ss
      | [] => [[c]]

/-- The parse error of `TryFrom<&str> for TraceParent`: the explicit
length bail-out, or a hex-decode failure from `from_str_radix` (all
`ParseIntError` kinds collapsed). -/
inductive TpErr where
  | badLength (n : Nat)
  | hexError
deriving DecidableEq, Repr

/-- Field extraction of `TryFrom<&str>`: the struct literal evaluates
`segs[0]`, `segs[1]`, `segs[2]`, `segs[3]` in order, each followed by
`?` early return; an out-of-range index is a Rust panic, modelled as
the outer `none`. -/
def parseFields (segs : List (List Char)) :
    Option (Except TpErr TraceParent) :=
  match segs[0]? with
  | none => none
  | some s0 =>
    match fromStrRadix16 8 s0 with
    | none => some (.error .hexError)
    | some version =>
      match segs[1]? with
      | none => none
      | some s1 =>
        match fromStrRadix16 128 s1 with
        | none => some (.error .hexError)
        | some trace_id =>
          match segs[2]? with
          | none => none
          | some s2 =>
            match fromStrRadix16 64 s2 with
            | none => some (.error .hexError)
            | some parent_id =>
              match segs[3]? with
              | none => none
              | some s3 =>
                match fromStrRadix16 8 s3 with
                | none => some (.error .hexError)
                | some flags =>
                  some (.ok ⟨version, trace_id, parent_id, flags⟩)

/-- `TryFrom<&str> for TraceParent`: bail with the length error unless
the input is exactly 55 characters, then split on `'-'` and parse the
four fields. The outer `Option` models panic (`none` = the code
panics). -/
def tryFromStr (value : List Char) : Option (Except TpErr TraceParent) :=
  if value.length ≠ 55 then some (.error (.badLength value.length))
  else parseFields (splitOnHyphen value)

/-! ### Helper lemmas -/

/-- A `filterMap`'s `any` is the underlying list's `any` through the
partial function. -/
lemma any_filterMap {α β : Type} (l : List α) (f : α → Option β)
    (p : β → Bool) :
    (l.filterMap f).any p =
      l.any fun x =>
        match f x with
        | some b => p b
        | none => false := by
  induction l with
  | nil => rfl
  | cons x xs ih =>
    cases h : f x <;> simp [List.filterMap_cons, h, ih]

/-- `check_gateway_address` is the `any` of the predicate over the
constituent gateway workloads. -/
lemma check_gateway_address_eq_any (state : DemandProxyState)
    (oga : Option GatewayAddress) (pred : Workload → Bool) :
    check_gateway_address state oga pred =
      (gatewayWorkloads state oga).any pred := by
  cases oga with
  | none => rfl
  | some ga =>
    unfold check_gateway_address gatewayWorkloads
    cases h : state.fetch_destination ga.destination with
    | none => simp [h]
    | some a =>
      cases a with
      | Workload wl => simp [h]
      | Service svc =>
        simp only [h, any_filterMap]
        congr 1
        funext ep
        cases state.fetch_workload_by_uid ep.2.workload_uid <;> rfl

/-! ### C1: identity-scoped certificate fetch -/

/-- C1: for every manager and identity — if the manager carries a
restriction and the identity's namespace or service-account differs
from it, `fetch_certificate` returns the distinct
`BugInvalidIdentityRequest` error carrying both identities, and (the
manager, hence its backend, being universally quantified) the result
never consults the backend; if namespace and service-account both
match, or there is no restriction, it returns the backend's result
verbatim. -/
theorem C1_scoped_fetch_certificate (m : ScopedSecretManager)
    (id : Identity) :
    (∀ a, m.allowed = some a →
      ∀ td ns sa, id = .Spiffe td ns sa →
        ((ns ≠ a.namespaceName ∨ sa ≠ a.service_account) →
          m.fetch_certificate id =
            .error (.BugInvalidIdentityRequest id a)) ∧
        (ns = a.namespaceName ∧ sa = a.service_account →
          m.fetch_certificate id = m.cert_manager id)) ∧
    (m.allowed = none → m.fetch_certificate id = m.cert_manager id) := by
  constructor
  · intro a ha td ns sa hid
    subst hid
    constructor
    · intro hmm
      simp [ScopedSecretManager.fetch_certificate, ha, hmm]
    · rintro ⟨hns, hsa⟩
      simp [ScopedSecretManager.fetch_certificate, ha, hns, hsa]
  · intro ha
    simp [ScopedSecretManager.fetch_certificate, ha]

/-- Witness for C1: a manager restricted to namespace `ns1` / account
`sa1` rejects an identity in `ns2` with the bug error for any backend,
and delegates verbatim on a match. -/
theorem C1_scoped_fetch_certificate_witness :
    (ScopedSecretManager.fetch_certificate
        ⟨fun _ => .ok ⟨7⟩, some ⟨"ztunnel", "ns1", "sa1"⟩⟩
        (.Spiffe "td" "ns2" "sa1") =
      .error (.BugInvalidIdentityRequest (.Spiffe "td" "ns2" "sa1")
        ⟨"ztunnel", "ns1", "sa1"⟩)) ∧
    (ScopedSecretManager.fetch_certificate
        ⟨fun _ => .ok ⟨7⟩, some ⟨"ztunnel", "ns1", "sa1"⟩⟩
        (.Spiffe "td" "ns1" "sa1") = .ok ⟨7⟩) := by
  constructor
  · exact ((C1_scoped_fetch_certificate
      ⟨fun _ => .ok ⟨7⟩, some ⟨"ztunnel", "ns1", "sa1"⟩⟩
      (.Spiffe "td" "ns2" "sa1")).1 ⟨"ztunnel", "ns1", "sa1"⟩ rfl
      "td" "ns2" "sa1" rfl).1 (Or.inl (by decide))
  · exact ((C1_scoped_fetch_certificate
      ⟨fun _ => .ok ⟨7⟩, some ⟨"ztunnel", "ns1", "sa1"⟩⟩
      (.Spiffe "td" "ns1" "sa1")).1 ⟨"ztunnel", "ns1", "sa1"⟩ rfl
      "td" "ns1" "sa1" rfl).2 ⟨rfl, rfl⟩

/-! ### C3: check_gateway_address -/

/-- C3: `check_gateway_address` returns false with no configured
gateway address or an unresolvable destination; applied to a resolved
workload it returns the predicate's value; applied to a resolved
service it returns true iff some endpoint workload (resolved by
workload UID) satisfies the predicate, and false for zero endpoints.
It is a total boolean function (never errors). -/
theorem C3_check_gateway_address (state : DemandProxyState)
    (pred : Workload → Bool) :
    (check_gateway_address state none pred = false) ∧
    (∀ ga, state.fetch_destination ga.destination = none →
      check_gateway_address state (some ga) pred = false) ∧
    (∀ ga wl,
      state.fetch_destination ga.destination = some (.Workload wl) →
      check_gateway_address state (some ga) pred = pred wl) ∧
    (∀ ga svc,
      state.fetch_destination ga.destination = some (.Service svc) →
      (check_gateway_address state (some ga) pred = true ↔
        ∃ ep ∈ svc.endpoints, ∃ wl,
          state.fetch_workload_by_uid ep.2.workload_uid = some wl ∧
            pred wl = true)) ∧
    (∀ ga svc,
      state.fetch_destination ga.destination = some (.Service svc) →
      svc.endpoints = [] →
      check_gateway_address state (some ga) pred = false) := by
  refine ⟨rfl, ?_, ?_, ?_, ?_⟩
  · intro ga h
    simp [check_gateway_address, h]
  · intro ga wl h
    simp [check_gateway_address, h]
  · intro ga svc h
    simp only [check_gateway_address, h, List.any_eq_true]
    constructor
    · rintro ⟨ep, hep, hp⟩
      cases hwl : state.fetch_workload_by_uid ep.2.workload_uid with
      | none => rw [hwl] at hp; simp at hp
      | some wl =>
        rw [hwl] at hp
        exact ⟨ep, hep, wl, hwl, hp⟩
    · rintro ⟨ep, hep, wl, hwl, hp⟩
      exact ⟨ep, hep, by rw [hwl]; exact hp⟩
  · intro ga svc h hemp
    simp [check_gateway_address, h, hemp]

/-- Witness for C3: a concrete store under which a service-resolved
gateway with one matching endpoint satisfies the predicate, and an
unresolvable destination yields false. -/
theorem C3_check_gateway_address_witness :
    (check_gateway_address
      ⟨fun _ => none, fun _ => none⟩
      (some ⟨.Hostname ⟨"ns", "gw"⟩, 15008⟩) (fun _ => true) = false) ∧
    (check_gateway_address
      ⟨fun _ => some (.Service ⟨"gw", "ns", "gw", [],
          [(("uid1", none), ⟨"uid1", none, []⟩)]⟩),
        fun u => if u = "uid1" then
          some ⟨"uid1", "gw", "ns", "td", "sa", "", [], none, none⟩
          else none⟩
      (some ⟨.Hostname ⟨"ns", "gw"⟩, 15008⟩) (fun _ => true) = true) := by
  constructor
  · exact (C3_check_gateway_address ⟨fun _ => none, fun _ => none⟩
      (fun _ => true)).2.1 ⟨.Hostname ⟨"ns", "gw"⟩, 15008⟩ rfl
  · exact ((C3_check_gateway_address _ _).2.2.2.1
      ⟨.Hostname ⟨"ns", "gw"⟩, 15008⟩ _ rfl).2
      ⟨(("uid1", none), ⟨"uid1", none, []⟩), by decide,
        ⟨"uid1", "gw", "ns", "td", "sa", "", [], none, none⟩, rfl, rfl⟩

/-! ### C2: waypoint vs network-gateway predicates -/

/-- C2: `check_from_waypoint` is true iff some workload constituting
the upstream's waypoint matches the source identity AND contains the
source IP in its address set (so a matching identity with a non-member
IP yields false); `check_from_network_gateway` is true iff some
workload constituting the upstream's network gateway matches the source
identity alone, with no address condition — and since the resolution
goes through `fetch_destination`, this holds uniformly for
literal-address and hostname-based gateway destinations. -/
theorem C2_waypoint_requires_ip_gateway_identity_only
    (state : DemandProxyState) (upstream : Workload)
    (src_identity : Option Identity) (src_ip : IpAddr) :
    (check_from_waypoint state upstream src_identity src_ip = true ↔
      ∃ wl ∈ gatewayWorkloads state upstream.waypoint,
        some wl.identity = src_identity ∧ src_ip ∈ wl.workload_ips) ∧
    ((∀ wl ∈ gatewayWorkloads state upstream.waypoint,
        src_ip ∉ wl.workload_ips) →
      check_from_waypoint state upstream src_identity src_ip = false) ∧
    (check_from_network_gateway state upstream src_identity = true ↔
      ∃ wl ∈ gatewayWorkloads state upstream.network_gateway,
        some wl.identity = src_identity) := by
  refine ⟨?_, ?_, ?_⟩
  · rw [check_from_waypoint, check_gateway_address_eq_any,
      List.any_eq_true]
    simp
  · intro hni
    rw [check_from_waypoint, check_gateway_address_eq_any]
    rw [List.any_eq_false]
    intro wl hwl
    simp [hni wl hwl]
  · rw [check_from_network_gateway, check_gateway_address_eq_any,
      List.any_eq_true]
    simp

/-- Witness for C2: under a concrete store whose waypoint resolves to a
workload owning IP `.v4 1` only, a matching identity with the
non-member source IP `.v4 2` is rejected, and the network-gateway check
accepts on identity alone. -/
theorem C2_waypoint_requires_ip_gateway_identity_only_witness :
    (check_from_waypoint
      ⟨fun _ => some (.Workload
          ⟨"u", "gw", "ns", "td", "sa", "", [.v4 1], none, none⟩),
        fun _ => none⟩
      ⟨"up", "app", "appns", "tdu", "sau", "",
        [], some ⟨.Hostname ⟨"ns", "gw"⟩, 15008⟩,
        some ⟨.Hostname ⟨"ns", "gw"⟩, 15008⟩⟩
      (some (.Spiffe "td" "ns" "sa")) (.v4 2) = false) ∧
    (check_from_network_gateway
      ⟨fun _ => some (.Workload
          ⟨"u", "gw", "ns", "td", "sa", "", [.v4 1], none, none⟩),
        fun _ => none⟩
      ⟨"up", "app", "appns", "tdu", "sau", "",
        [], some ⟨.Hostname ⟨"ns", "gw"⟩, 15008⟩,
        some ⟨.Hostname ⟨"ns", "gw"⟩, 15008⟩⟩
      (some (.Spiffe "td" "ns" "sa")) = true) := by
  constructor
  · exact (C2_waypoint_requires_ip_gateway_identity_only _ _ _ _).2.1
      (by decide)
  · exact (C2_waypoint_requires_ip_gateway_identity_only _ _
      (some (.Spiffe "td" "ns" "sa")) (.v4 2)).2.2.mpr
      ⟨⟨"u", "gw", "ns", "td", "sa", "", [.v4 1], none, none⟩,
        by decide, rfl⟩

/-! ### C10: unauthenticated peers are never gateways -/

/-- C10: with an absent source identity, both `check_from_waypoint` and
`check_from_network_gateway` return false for every state store,
upstream workload and source IP — even if some gateway workload's
address set contains the source IP. -/
theorem C10_no_identity_never_gateway (state : DemandProxyState)
    (upstream : Workload) (src_ip : IpAddr) :
    check_from_waypoint state upstream none src_ip = false ∧
    check_from_network_gateway state upstream none = false := by
  constructor
  · rw [check_from_waypoint, check_gateway_address_eq_any,
      List.any_eq_false]
    intro wl _
    simp
  · rw [check_from_network_gateway, check_gateway_address_eq_any,
      List.any_eq_false]
    intro wl _
    simp

/-! ### C9: maybe_set_transparent -/

/-- C9: `maybe_set_transparent` — explicitly enabled: attempts the
option and propagates its failure as a hard error, otherwise returns
true; explicitly disabled: returns false whatever the attempt would
have returned (the outcome being universally quantified, the option is
never attempted); unspecified: best-effort, returns whether the attempt
succeeded and never errors. -/
theorem C9_maybe_set_transparent (st : Except IoErrKind Unit)
    (e : IoErrKind) :
    maybe_set_transparent (some true) (.error e) = .error (.Io e) ∧
    maybe_set_transparent (some true) (.ok ()) = .ok true ∧
    maybe_set_transparent (some false) st = .ok false ∧
    maybe_set_transparent none (.ok ()) = .ok true ∧
    maybe_set_transparent none (.error e) = .ok false ∧
    ∃ b, maybe_set_transparent none st = .ok b := by
  refine ⟨rfl, rfl, rfl, rfl, rfl, ?_⟩
  cases st with
  | ok u => cases u; exact ⟨true, rfl⟩
  | error _ => exact ⟨false, rfl⟩

/-! ### C5: connect timeout -/

/-- C5: when the 10-second timer (`CONNECTION_TIMEOUT`, here in
seconds) elapses, `freebind_connect` returns the distinct `TimedOut`
I/O error — in particular not the raw underlying connect error such as
connection-refused — for every oracle, local address and destination. -/
theorem C5_freebind_connect_timeout (o : ConnectOracle)
    (localAddr : Option IpAddr) (addr : SocketAddr) :
    freebind_connect true o localAddr addr = .error .timedOut ∧
    freebind_connect true o localAddr addr ≠
      .error .connectionRefused ∧
    CONNECTION_TIMEOUT_SECS = 10 := by
  refine ⟨rfl, ?_, rfl⟩
  intro h
  simp [freebind_connect] at h

/-- Witness for C5: the timed-out result at a concrete oracle whose
underlying connect would have been refused. -/
theorem C5_freebind_connect_timeout_witness :
    freebind_connect true
        ⟨.ok (), .ok (), .ok (), .ok (), .error .connectionRefused⟩
        none ⟨.v4 1, 80⟩ = .error .timedOut ∧
    freebind_connect true
        ⟨.ok (), .ok (), .ok (), .ok (), .error .connectionRefused⟩
        none ⟨.v4 1, 80⟩ ≠ .error .connectionRefused ∧
    CONNECTION_TIMEOUT_SECS = 10 :=
  C5_freebind_connect_timeout
    ⟨.ok (), .ok (), .ok (), .ok (), .error .connectionRefused⟩
    none ⟨.v4 1, 80⟩

/-! ### C4: self-targeting local address falls through to plain connect -/

/-- The trace of a plain (no local address) connect: the
family-matching create event, then the connect event if creation
succeeded. -/
lemma connect_none_events (o : ConnectOracle) (addr : SocketAddr) :
    (connect o none addr).2 =
        [if addr.ip.isV4 then SockEv.newTcpV4 else SockEv.newTcpV6] ∨
      (connect o none addr).2 =
        [if addr.ip.isV4 then SockEv.newTcpV4 else SockEv.newTcpV6,
          .connectTo addr] := by
  unfold connect createSocket
  cases haddr : addr.ip.isV4 with
  | false => cases o.newTcpV6 <;> simp
  | true => cases o.newTcpV4 <;> simp

/-- C4: a requested local address equal to the canonicalized
destination IP behaves exactly like no local address: the inner
`connect` (result and event trace) coincides with the plain-connect
case, so does `freebind_connect`, the trace contains no
freebind/transparent or local-bind attempt, and the socket created is
of the destination's address family. The no-local case likewise
attempts no freebind or bind. -/
theorem C4_selflocal_plain_connect (o : ConnectOracle)
    (addr : SocketAddr) (src : IpAddr)
    (h : src = canonicalIp addr.ip) :
    connect o (some src) addr = connect o none addr ∧
    freebind_connect false o (some src) addr =
      freebind_connect false o none addr ∧
    (∀ ev ∈ (connect o (some src) addr).2,
      ev ≠ .setFreebindTransparent ∧ ∀ a, ev ≠ .bindLocal a) ∧
    (∀ ev ∈ (connect o none addr).2,
      ev ≠ .setFreebindTransparent ∧ ∀ a, ev ≠ .bindLocal a) ∧
    (connect o none addr).2.head? =
      some (if addr.ip.isV4 then SockEv.newTcpV4 else SockEv.newTcpV6) := by
  have hif : src = (toCanonical addr).ip := h
  have hsame : connect o (some src) addr = connect o none addr := by
    simp only [connect]
    rw [if_pos hif]
  have hnone : ∀ ev ∈ (connect o none addr).2,
      ev ≠ .setFreebindTransparent ∧ ∀ a, ev ≠ .bindLocal a := by
    intro ev hev
    rcases connect_none_events o addr with hevs | hevs <;>
      rw [hevs] at hev <;> cases haddr : addr.ip.isV4 <;>
      rw [haddr] at hev <;> simp at hev <;>
      first
        | (subst hev; exact ⟨by simp, by simp⟩)
        | (rcases hev with hev | hev <;> subst hev <;>
            exact ⟨by simp, by simp⟩)
  refine ⟨hsame, by rw [freebind_connect, freebind_connect, hsame], ?_,
    hnone, ?_⟩
  · rw [hsame]; exact hnone
  · rcases connect_none_events o addr with hevs | hevs <;> rw [hevs] <;>
      rfl

/-- Witness for C4: destination `[::ffff:0.0.0.1]:80` canonicalizes to
IPv4 address `1`, so requesting that IPv4 address as the local source
falls through to the plain connect. -/
theorem C4_selflocal_plain_connect_witness :
    connect ⟨.ok (), .ok (), .ok (), .ok (), .ok ()⟩
        (some (.v4 1)) ⟨.v6 (0xffff * 2 ^ 32 + 1), 80⟩ =
      connect ⟨.ok (), .ok (), .ok (), .ok (), .ok ()⟩
        none ⟨.v6 (0xffff * 2 ^ 32 + 1), 80⟩ :=
  (C4_selflocal_plain_connect ⟨.ok (), .ok (), .ok (), .ok (), .ok ()⟩
    ⟨.v6 (0xffff * 2 ^ 32 + 1), 80⟩ (.v4 1) (by decide)).1

/-! ### C8: inbound service attribution -/

/-- C8: `guess_inbound_service` priority order — if the candidate scan
for the host header finds a service, that service's description is
returned (irrespective of any port matches elsewhere); if no candidate
hostname equals the host header, the result is the first candidate
passing the port scan (declared target port equal to the destination
port, or the endpoint keyed by the destination workload's UID and
resolved network address holding a named-port mapping to it); if
neither scan matches, the result is none. -/
theorem C8_guess_inbound_service (conn : Connection)
    (hh : Option String) (services : List Service) (dest : Workload) :
    (∀ s, services.find? (fun s => hh = some s.hostname) = some s →
      guess_inbound_service conn hh services dest =
        some (ServiceDescription.fromService s)) ∧
    ((∀ s ∈ services, ¬hh = some s.hostname) →
      guess_inbound_service conn hh services dest =
        (services.find? fun s =>
          servicePortMatch s
            (endpoint_uid dest.uid
              (some (network_addr dest.network conn.dst.ip)))
            conn.dst.port).map ServiceDescription.fromService) ∧
    ((∀ s ∈ services, ¬hh = some s.hostname ∧
        servicePortMatch s
          (endpoint_uid dest.uid
            (some (network_addr dest.network conn.dst.ip)))
          conn.dst.port = false) →
      guess_inbound_service conn hh services dest = none) := by
  refine ⟨?_, ?_, ?_⟩
  · intro s hs
    simp [guess_inbound_service, hs]
  · intro hno
    have hfind : services.find? (fun s => hh = some s.hostname) = none := by
      rw [List.find?_eq_none]
      intro s hs
      simp [hno s hs]
    simp [guess_inbound_service, hfind]
  · intro hno
    have hfind : services.find? (fun s => hh = some s.hostname) = none := by
      rw [List.find?_eq_none]
      intro s hs
      simp [(hno s hs).1]
    have hport : (services.find? fun s =>
        servicePortMatch s
          (endpoint_uid dest.uid
            (some (network_addr dest.network conn.dst.ip)))
          conn.dst.port) = none := by
      rw [List.find?_eq_none]
      intro s hs
      simp [(hno s hs).2]
    simp [guess_inbound_service, hfind, hport]

/-- Witness for C8: with host header `a.example.com` naming service A,
A is returned even though service B's target-port mapping matches the
destination port 8080; and with no host header, B (the only
port-matching candidate) is returned. -/
theorem C8_guess_inbound_service_witness :
    (guess_inbound_service ⟨⟨.v4 10, 8080⟩⟩ (some "a.example.com")
        [⟨"a", "ns", "a.example.com", [(80, 9999)], []⟩,
          ⟨"b", "ns", "b.example.com", [(80, 8080)], []⟩]
        ⟨"u", "w", "ns", "td", "sa", "net", [], none, none⟩ =
      some ⟨"a", "ns", "a.example.com"⟩) ∧
    (guess_inbound_service ⟨⟨.v4 10, 8080⟩⟩ none
        [⟨"a", "ns", "a.example.com", [(80, 9999)], []⟩,
          ⟨"b", "ns", "b.example.com", [(80, 8080)], []⟩]
        ⟨"u", "w", "ns", "td", "sa", "net", [], none, none⟩ =
      some ⟨"b", "ns", "b.example.com"⟩) := by
  constructor
  · exact (C8_guess_inbound_service _ _ _ _).1
      ⟨"a", "ns", "a.example.com", [(80, 9999)], []⟩ (by decide)
  · exact ((C8_guess_inbound_service _ none _ _).2.1
      (by decide)).trans (by decide)

/-! ### C6: TraceParent parsing -/

/-- 55 `'0'` characters: length passes, `split('-')` yields a single
segment, `segs[0]` parses as `u8` value 0, and the `segs[1]` index is
out of bounds — a Rust panic. -/
def zeros55 : List Char := List.replicate 55 '0'

/-- A 55-character string whose hyphen-separated fields have hex widths
1/33/16/2 (not 2/32/16/2), all of which still parse within their
integer ranges. -/
def odd55 : List Char :=
  '0' :: '-' ::
    (List.replicate 33 '0' ++ '-' ::
      (List.replicate 16 '0' ++ ['-', '0', '2']))

/-- C6 counterexample: parsing is not total — on 55 `'0'`s the code
panics (out-of-bounds `segs[1]`, modelled as `none`); and a
55-character string whose fields are not 2/32/16/2 hex digits can still
parse successfully instead of failing with a hex-decode error. -/
theorem C6_counterexample_parse_not_total :
    tryFromStr zeros55 = none ∧
    odd55.length = 55 ∧
    tryFromStr odd55 = some (.ok ⟨0, 0, 0, 2⟩) :=
  ⟨rfl, rfl, rfl⟩

/-- Any list of at least four segments parses without panic: either a
`TraceParent` or the hex-decode error. -/
lemma parseFields_total (segs : List (List Char))
    (h4 : 4 ≤ segs.length) :
    (∃ tp, parseFields segs = some (.ok tp)) ∨
      parseFields segs = some (.error .hexError) := by
  obtain ⟨s0, h0⟩ : ∃ s0, segs[0]? = some s0 := by
    cases hg : segs[0]? with
    | none => rw [List.getElem?_eq_none_iff] at hg; omega
    | some s0 => exact ⟨s0, rfl⟩
  obtain ⟨s1, h1⟩ : ∃ s1, segs[1]? = some s1 := by
    cases hg : segs[1]? with
    | none => rw [List.getElem?_eq_none_iff] at hg; omega
    | some s1 => exact ⟨s1, rfl⟩
  obtain ⟨s2, h2⟩ : ∃ s2, segs[2]? = some s2 := by
    cases hg : segs[2]? with
    | none => rw [List.getElem?_eq_none_iff] at hg; omega
    | some s2 => exact ⟨s2, rfl⟩
  obtain ⟨s3, h3⟩ : ∃ s3, segs[3]? = some s3 := by
    cases hg : segs[3]? with
    | none => rw [List.getElem?_eq_none_iff] at hg; omega
    | some s3 => exact ⟨s3, rfl⟩
  rcases hv0 : fromStrRadix16 8 s0 with _ | v0
  · right; simp [parseFields, h0, hv0]
  · rcases hv1 : fromStrRadix16 128 s1 with _ | v1
    · right; simp [parseFields, h0, hv0, h1, hv1]
    · rcases hv2 : fromStrRadix16 64 s2 with _ | v2
      · right; simp [parseFields, h0, hv0, h1, hv1, h2, hv2]
      · rcases hv3 : fromStrRadix16 8 s3 with _ | v3
        · right
          simp [parseFields, h0, hv0, h1, hv1, h2, hv2, h3, hv3]
        · left
          exact ⟨⟨v0, v1, v2, v3⟩,
            by simp [parseFields, h0, hv0, h1, hv1, h2, hv2, h3, hv3]⟩

/-- C6 amended: any string whose length is not 55 fails with the
length-mismatch error carrying the offending length; a 55-character
string with at least four hyphen-separated fields never panics and
returns either a parsed `TraceParent` or the collapsed hex-decode error
(field widths other than 2/32/16/2 are not themselves rejected); a
panic (out-of-bounds indexing) can only occur on a 55-character string
with fewer than four hyphen-separated fields. -/
theorem C6_amended_parsing (s : List Char) :
    (s.length ≠ 55 → tryFromStr s = some (.error (.badLength s.length))) ∧
    (s.length = 55 → 4 ≤ (splitOnHyphen s).length →
      (∃ tp, tryFromStr s = some (.ok tp)) ∨
        tryFromStr s = some (.error .hexError)) ∧
    (tryFromStr s = none → (splitOnHyphen s).length < 4) := by
  have p1 : s.length ≠ 55 →
      tryFromStr s = some (.error (.badLength s.length)) := by
    intro h
    simp [tryFromStr, h]
  have p2 : s.length = 55 → 4 ≤ (splitOnHyphen s).length →
      (∃ tp, tryFromStr s = some (.ok tp)) ∨
        tryFromStr s = some (.error .hexError) := by
    intro h55 h4
    have : tryFromStr s = parseFields (splitOnHyphen s) := by
      simp [tryFromStr, h55]
    rw [this]
    exact parseFields_total _ h4
  refine ⟨p1, p2, ?_⟩
  intro hn
  by_contra hge
  push_neg at hge
  by_cases h55 : s.length = 55
  · rcases p2 h55 hge with ⟨tp, htp⟩ | herr
    · rw [htp] at hn; exact Option.noConfusion hn
    · rw [herr] at hn; exact Option.noConfusion hn
  · rw [p1 h55] at hn; exact Option.noConfusion hn

/-- Witness for C6 amended: a 54-character string fails with the length
error, and a well-formed 55-character string with four fields parses
without panic. -/
theorem C6_amended_parsing_witness :
    (tryFromStr (List.replicate 54 '0') =
      some (.error (.badLength (List.replicate 54 '0').length))) ∧
    ((∃ tp, tryFromStr (debugFmt ⟨1, 2, 3, 4⟩) = some (.ok tp)) ∨
      tryFromStr (debugFmt ⟨1, 2, 3, 4⟩) = some (.error .hexError)) :=
  ⟨(C6_amended_parsing (List.replicate 54 '0')).1 (by decide),
    (C6_amended_parsing (debugFmt ⟨1, 2, 3, 4⟩)).2.1 (by decide)
      (by decide)⟩

/-! ### C7: TraceParent round trip -/

lemma length_toHexFixed (w n : Nat) : (toHexFixed w n).length = w := by
  induction w generalizing n with
  | zero => rfl
  | succ w ih => simp [toHexFixed, ih]

lemma mem_toHexFixed {w n : Nat} {c : Char} (hc : c ∈ toHexFixed w n) :
    ∃ d, d < 16 ∧ c = hexDigitChar d := by
  induction w generalizing n with
  | zero => simp [toHexFixed] at hc
  | succ w ih =>
    rw [toHexFixed, List.mem_append] at hc
    rcases hc with hc | hc
    · exact ih hc
    · rw [List.mem_singleton] at hc
      exact ⟨n % 16, Nat.mod_lt _ (by norm_num), hc⟩

lemma hexDigitChar_ne_dash {d : Nat} (hd : d < 16) :
    hexDigitChar d ≠ '-' := by
  interval_cases d <;> decide

lemma hexDigitChar_ne_plus {d : Nat} (hd : d < 16) :
    hexDigitChar d ≠ '+' := by
  interval_cases d <;> decide

lemma hexVal_hexDigitChar {d : Nat} (hd : d < 16) :
    hexVal (hexDigitChar d) = some d := by
  interval_cases d <;> decide

lemma not_dash_mem_toHexFixed (w n : Nat) : '-' ∉ toHexFixed w n := by
  intro h
  obtain ⟨d, hd, hc⟩ := mem_toHexFixed h
  exact hexDigitChar_ne_dash hd hc.symm

lemma parseHexAux_append (acc : Nat) (xs ys : List Char) :
    parseHexAux acc (xs ++ ys) =
      match parseHexAux acc xs with
      | some v => parseHexAux v ys
      | none => none := by
  induction xs generalizing acc with
  | nil => rfl
  | cons c cs ih =>
    cases h : hexVal c <;> simp [parseHexAux, h, ih]

lemma parseHexAux_toHexFixed (w : Nat) :
    ∀ acc n, parseHexAux acc (toHexFixed w n) =
      some (acc * 16 ^ w + n % 16 ^ w) := by
  induction w with
  | zero =>
    intro acc n
    simp [toHexFixed, parseHexAux, Nat.mod_one]
  | succ w ih =>
    intro acc n
    rw [toHexFixed, parseHexAux_append, ih]
    simp only [parseHexAux,
      hexVal_hexDigitChar (Nat.mod_lt n (by norm_num) : n % 16 < 16)]
    have h1 : n % 16 ^ (w + 1) = n % 16 + 16 * (n / 16 % 16 ^ w) := by
      rw [pow_succ, mul_comm]
      exact Nat.mod_mul
    rw [h1]
    ring_nf

lemma fromStrRadix16_toHexFixed {bits w n : Nat} (hw : 0 < w)
    (hpow : (16 : Nat) ^ w = 2 ^ bits) (hn : n < 2 ^ bits) :
    fromStrRadix16 bits (toHexFixed w n) = some n := by
  obtain ⟨c, cs, hcs⟩ : ∃ c cs, toHexFixed w n = c :: cs := by
    cases hx : toHexFixed w n with
    | nil =>
      exfalso
      have := length_toHexFixed w n
      rw [hx] at this
      simp at this
      omega
    | cons c cs => exact ⟨c, cs, rfl⟩
  have hplus : c ≠ '+' := by
    have hcmem : c ∈ toHexFixed w n := by
      rw [hcs]; exact List.mem_cons_self c cs
    obtain ⟨d, hd, hcd⟩ := mem_toHexFixed hcmem
    rw [hcd]
    exact hexDigitChar_ne_plus hd
  have hstrip : stripPlus (toHexFixed w n) = toHexFixed w n := by
    rw [hcs, stripPlus, if_neg hplus]
  have hmod : n % 16 ^ w = n := by
    rw [Nat.mod_eq_of_lt]
    rw [hpow]
    exact hn
  rw [fromStrRadix16, if_neg (by rw [hcs]; simp), hstrip,
    if_neg (by rw [hcs]; simp)]
  rw [parseHexAux_toHexFixed]
  simp only [Nat.zero_mul, Nat.zero_add, hmod]
  rw [if_pos hn]

lemma splitOnHyphen_no_dash (a : List Char) (ha : '-' ∉ a) :
    splitOnHyphen a = [a] := by
  induction a with
  | nil => rfl
  | cons c cs ih =>
    have hc : c ≠ '-' := fun h => ha (h ▸ List.mem_cons_self c cs)
    have hcs : '-' ∉ cs := fun h => ha (List.mem_cons_of_mem _ h)
    rw [splitOnHyphen, if_neg hc, ih hcs]

lemma splitOnHyphen_append (a rest : List Char) (ha : '-' ∉ a) :
    splitOnHyphen (a ++ '-' :: rest) = a :: splitOnHyphen rest := by
  induction a with
  | nil =>
    simp [splitOnHyphen]
  | cons c cs ih =>
    have hc : c ≠ '-' := fun h => ha (h ▸ List.mem_cons_self c cs)
    have hcs : '-' ∉ cs := fun h => ha (List.mem_cons_of_mem _ h)
    rw [List.cons_append, splitOnHyphen, if_neg hc, ih hcs]

lemma splitOnHyphen_debugFmt (tp : TraceParent) :
    splitOnHyphen (debugFmt tp) =
      [toHexFixed 2 tp.version, toHexFixed 32 tp.trace_id,
        toHexFixed 16 tp.parent_id, toHexFixed 2 tp.flags] := by
  rw [debugFmt,
    splitOnHyphen_append _ _ (not_dash_mem_toHexFixed 2 tp.version),
    splitOnHyphen_append _ _ (not_dash_mem_toHexFixed 32 tp.trace_id),
    splitOnHyphen_append _ _ (not_dash_mem_toHexFixed 16 tp.parent_id),
    splitOnHyphen_no_dash _ (not_dash_mem_toHexFixed 2 tp.flags)]

lemma length_debugFmt (tp : TraceParent) : (debugFmt tp).length = 55 := by
  simp [debugFmt, length_toHexFixed]

/-- C7: for every `TraceParent` with fields in the machine-integer
ranges, parsing the 55-character debug rendering
(`"{:02x}-{:032x}-{:016x}-{:02x}"`) yields back the identical
version/trace-id/parent-id/flags; and the `Display` rendering is only
the 32-hex-digit trace id (length 32, decoding to the trace id). -/
theorem C7_traceparent_roundtrip (tp : TraceParent)
    (h1 : tp.version < 2 ^ 8) (h2 : tp.trace_id < 2 ^ 128)
    (h3 : tp.parent_id < 2 ^ 64) (h4 : tp.flags < 2 ^ 8) :
    tryFromStr (debugFmt tp) = some (.ok tp) ∧
    (debugFmt tp).length = 55 ∧
    (displayFmt tp).length = 32 ∧
    fromStrRadix16 128 (displayFmt tp) = some tp.trace_id := by
  refine ⟨?_, length_debugFmt tp, by simp [displayFmt, length_toHexFixed],
    fromStrRadix16_toHexFixed (by norm_num) (by norm_num) h2⟩
  rw [tryFromStr, if_neg (by rw [length_debugFmt]; simp),
    splitOnHyphen_debugFmt]
  rw [parseFields]
  simp only [List.getElem?_cons_zero, List.getElem?_cons_succ,
    fromStrRadix16_toHexFixed (by norm_num : (0:Nat) < 2)
      (by norm_num : (16:Nat) ^ 2 = 2 ^ 8) h1,
    fromStrRadix16_toHexFixed (by norm_num : (0:Nat) < 32)
      (by norm_num : (16:Nat) ^ 32 = 2 ^ 128) h2,
    fromStrRadix16_toHexFixed (by norm_num : (0:Nat) < 16)
      (by norm_num : (16:Nat) ^ 16 = 2 ^ 64) h3,
    fromStrRadix16_toHexFixed (by norm_num : (0:Nat) < 2)
      (by norm_num : (16:Nat) ^ 2 = 2 ^ 8) h4]

/-- Witness for C7: the concrete `TraceParent` (1, 2, 3, 4) round-trips
through its debug rendering. -/
theorem C7_traceparent_roundtrip_witness :
    tryFromStr (debugFmt ⟨1, 2, 3, 4⟩) = some (.ok ⟨1, 2, 3, 4⟩) ∧
    (debugFmt (⟨1, 2, 3, 4⟩ : TraceParent)).length = 55 ∧
    (displayFmt (⟨1, 2, 3, 4⟩ : TraceParent)).length = 32 ∧
    fromStrRadix16 128 (displayFmt (⟨1, 2, 3, 4⟩ : TraceParent)) =
      some (⟨1, 2, 3, 4⟩ : TraceParent).trace_id :=
  C7_traceparent_roundtrip ⟨1, 2, 3, 4⟩ (by norm_num) (by norm_num)
    (by norm_num) (by norm_num)

end ZtunnelProxy
